import Mathlib

/-!
Verification development for the pynexe build-pipeline orchestrator
(`src/builder.py`).  The Python source is shallowly embedded: the parsed
YAML configuration document becomes an association list of `YamlValue`s,
filesystem existence becomes `String → Bool` oracles, and each external
subprocess becomes a `ProcResult` supplied by the environment.  Every
definition is translated from the corresponding function in
`src/builder.py`; line references are given in the doc comments.
-/

set_option maxHeartbeats 1000000

namespace PyNexe

/-- A parsed YAML scalar/collection value, as `yaml.safe_load` would hand it
to the Python code.  Floats are not needed by any claim and are omitted. -/
inductive YamlValue where
  | null
  | bool (b : Bool)
  | int (n : Int)
  | str (s : String)
  | list (l : List YamlValue)

/-- Python truthiness (`bool(v)`) for the embedded YAML values:
`None`, `False`, `0`, `""` and `[]` are falsy, everything else truthy. -/
def YamlValue.truthy : YamlValue → Bool
  | .null => false
  | .bool b => b
  | .int n => n != 0
  | .str s => s != ""
  | .list l => !l.isEmpty

/-- The configuration document `self.config`: a parsed key/value mapping. -/
abbrev Doc := List (String × YamlValue)

/-- `key in self.config` / `self.config[key]`: dictionary lookup. -/
def Doc.find (config : Doc) (key : String) : Option YamlValue :=
  List.lookup key config

/-- `required_fields` from `BuilderConfig._validate_config`
(builder.py line 103). -/
def required_fields : List String := ["project_name", "main_file", "output_name"]

/-- The test `field not in self.config or not self.config[field]` from
`BuilderConfig._validate_config` (builder.py line 107). -/
def fieldMissing (config : Doc) (field : String) : Bool :=
  match config.find field with
  | none => true
  | some v => !v.truthy

/-- The `missing_fields` list computed by `BuilderConfig._validate_config`
(builder.py lines 105-108): a required field is collected when it is absent
(`field not in self.config`) or bound to a falsy value
(`not self.config[field]`). -/
def missing_fields (config : Doc) : List String :=
  required_fields.filter (fieldMissing config)

/-- `BuilderConfig._validate_config` (builder.py lines 102-111): raises
`ValueError` naming all missing fields joined by `", "` when any required
field is missing, otherwise returns normally. -/
def validate_config (config : Doc) : Except String Unit :=
  let m := missing_fields config
  if m.isEmpty then .ok ()
  else .error ("Missing required fields: " ++ String.intercalate ", " m)

/-- `BuilderConfig.project_name` (builder.py lines 23-25):
`self.config["project_name"]`, projected at string type (validation has
already ensured the field is present and truthy in every real run). -/
def project_name (config : Doc) : String :=
  match config.find "project_name" with
  | some (.str s) => s
  | _ => ""

/-- String-typed projection of a YAML value, used to read lists of package
identifiers / paths out of the document. -/
def asString : YamlValue → Option String
  | .str s => some s
  | _ => none

/-- `self.config.get(key, default)` read at `list[str]` type. -/
def getStringList (config : Doc) (key : String) (default : List String) :
    List String :=
  match config.find key with
  | some (.list l) => l.filterMap asString
  | _ => default

/-- `BuilderConfig.cleanup_items` (builder.py lines 84-93): the four
canonical names derived from `project_name` followed by the
document-supplied `cleanup_items` extras. -/
def cleanup_items (config : Doc) : List String :=
  let base_items :=
    [project_name config ++ ".build",
     project_name config ++ ".dist",
     project_name config ++ ".onefile-build",
     "__pycache__"]
  let custom_items := getStringList config "cleanup_items" []
  base_items ++ custom_items

/-! ### Helper lemmas about `String.intercalate` -/

lemma intercalate_go_extends (as : List String) :
    ∀ acc s : String, ∃ t, String.intercalate.go acc s as = acc ++ t := by
  induction as with
  | nil =>
    intro acc s
    exact ⟨"", (String.append_empty acc).symm⟩
  | cons a as ih =>
    intro acc s
    obtain ⟨t, ht⟩ := ih (acc ++ s ++ a) s
    refine ⟨s ++ a ++ t, ?_⟩
    rw [show String.intercalate.go acc s (a :: as) =
      String.intercalate.go (acc ++ s ++ a) s as from rfl, ht,
      String.append_assoc acc s a, String.append_assoc acc (s ++ a) t]

lemma intercalate_go_mem {f : String} (as : List String) (hf : f ∈ as) :
    ∀ acc s : String, ∃ x y, String.intercalate.go acc s as = x ++ f ++ y := by
  induction as with
  | nil => cases hf
  | cons a as ih =>
    intro acc s
    cases hf with
    | head =>
      obtain ⟨t, ht⟩ := intercalate_go_extends as (acc ++ s ++ f) s
      exact ⟨acc ++ s, t, by
        rw [show String.intercalate.go acc s (f :: as) =
          String.intercalate.go (acc ++ s ++ f) s as from rfl, ht]⟩
    | tail _ hmem =>
      obtain ⟨x, y, hxy⟩ := ih hmem (acc ++ s ++ a) s
      exact ⟨x, y, hxy⟩

/-- Every member of the joined list occurs verbatim in the joined string. -/
lemma mem_intercalate_substring {f : String} {l : List String} (hf : f ∈ l)
    (s : String) : ∃ x y, String.intercalate s l = x ++ f ++ y := by
  cases l with
  | nil => cases hf
  | cons a as =>
    cases hf with
    | head =>
      obtain ⟨t, ht⟩ := intercalate_go_extends as f s
      exact ⟨"", t, by
        rw [show String.intercalate s (f :: as) =
          String.intercalate.go f s as from rfl, ht, String.empty_append]⟩
    | tail _ hmem =>
      obtain ⟨x, y, hxy⟩ := intercalate_go_mem as hmem a s
      exact ⟨x, y, by
        rw [show String.intercalate s (a :: as) =
          String.intercalate.go a s as from rfl, hxy]⟩

/-! ### Claims about the Configuration Model -/

/-- When some required field is missing, validation fails with the message
built by joining the whole `missing_fields` list, and that message contains
each missing field verbatim. -/
lemma validate_error_of_missing (config : Doc) (f : String)
    (hf : f ∈ required_fields) (hmiss : fieldMissing config f = true) :
    ∃ msg, validate_config config = .error msg ∧
      msg = "Missing required fields: " ++
        String.intercalate ", " (missing_fields config) ∧
      ∀ g ∈ required_fields, fieldMissing config g = true →
        ∃ x y, msg = x ++ g ++ y := by
  have hfm : f ∈ missing_fields config := List.mem_filter.mpr ⟨hf, hmiss⟩
  have hne : (missing_fields config).isEmpty = false := by
    cases hme : missing_fields config with
    | nil => rw [hme] at hfm; cases hfm
    | cons a as => simp [List.isEmpty, hme]
  refine ⟨_, ?_, rfl, ?_⟩
  · simp only [validate_config, hne, Bool.false_eq_true, if_false]
  · intro g hg hgmiss
    have hgm : g ∈ missing_fields config := List.mem_filter.mpr ⟨hg, hgmiss⟩
    obtain ⟨x, y, hxy⟩ := mem_intercalate_substring hgm ", "
    exact ⟨"Missing required fields: " ++ x, y, by
      rw [hxy, String.append_assoc, String.append_assoc, String.append_assoc]⟩

/-- C2: for any configuration document in which at least one of the three
required fields `project_name`, `main_file`, `output_name` is absent or
falsy, `_validate_config` fails, and its error message is built from — and
textually contains — every missing required field at once, not just the
first one encountered. -/
theorem C2_validate_names_all_missing (config : Doc) (f : String)
    (hf : f ∈ required_fields) (hmiss : fieldMissing config f = true) :
    ∃ msg, validate_config config = .error msg ∧
      msg = "Missing required fields: " ++
        String.intercalate ", " (missing_fields config) ∧
      ∀ g ∈ required_fields, fieldMissing config g = true →
        ∃ x y, msg = x ++ g ++ y :=
  validate_error_of_missing config f hf hmiss

/-- Witness for C2: a document with `main_file` present and truthy but
`project_name` and `output_name` absent. -/
theorem C2_validate_names_all_missing_witness :
    ∃ msg, validate_config [("main_file", YamlValue.str "m.py")] = .error msg ∧
      msg = "Missing required fields: " ++
        String.intercalate ", "
          (missing_fields [("main_file", YamlValue.str "m.py")]) ∧
      ∀ g ∈ required_fields,
        fieldMissing [("main_file", YamlValue.str "m.py")] g = true →
          ∃ x y, msg = x ++ g ++ y :=
  C2_validate_names_all_missing [("main_file", YamlValue.str "m.py")]
    "project_name" (by decide) (by rfl)

/-- C10: a required field that is present but bound to a falsy value
(null, false, 0, empty string, empty list) is treated as missing: it is
collected into `missing_fields` and validation fails with an error message
containing that field's name. -/
theorem C10_falsy_counts_as_missing (config : Doc) (f : String) (v : YamlValue)
    (hf : f ∈ required_fields) (hfind : config.find f = some v)
    (hfalsy : v.truthy = false) :
    f ∈ missing_fields config ∧
      ∃ msg, validate_config config = .error msg ∧ ∃ x y, msg = x ++ f ++ y := by
  have hmiss : fieldMissing config f = true := by
    unfold fieldMissing
    rw [hfind]
    show (!v.truthy) = true
    rw [hfalsy]
    rfl
  obtain ⟨msg, herr, _, hnames⟩ := validate_error_of_missing config f hf hmiss
  exact ⟨List.mem_filter.mpr ⟨hf, hmiss⟩, msg, herr, hnames f hf hmiss⟩

/-- Witness for C10: `output_name` present but bound to the integer 0. -/
theorem C10_falsy_counts_as_missing_witness :
    "output_name" ∈ missing_fields
        [("project_name", YamlValue.str "demo"),
         ("main_file", YamlValue.str "m.py"),
         ("output_name", YamlValue.int 0)] ∧
      ∃ msg, validate_config
        [("project_name", YamlValue.str "demo"),
         ("main_file", YamlValue.str "m.py"),
         ("output_name", YamlValue.int 0)] = .error msg ∧
        ∃ x y, msg = x ++ "output_name" ++ y :=
  C10_falsy_counts_as_missing
    [("project_name", YamlValue.str "demo"),
     ("main_file", YamlValue.str "m.py"),
     ("output_name", YamlValue.int 0)]
    "output_name" (YamlValue.int 0) (by decide) (by rfl) (by rfl)

/-! ### Subprocess results and Python string helpers -/

/-- The result of a `subprocess.run(..., capture_output=True, text=True)`
call: exit code plus captured output streams. -/
structure ProcResult where
  returncode : Int
  stdout : String
  stderr : String

/-- Python's default whitespace set for `str.strip()` (ASCII part). -/
def isPySpace (c : Char) : Bool :=
  c == ' ' || c == '\t' || c == '\n' || c == '\r' || c == '\x0b' || c == '\x0c'

/-- Python `s.strip()`: drop leading and trailing whitespace. -/
def pyStrip (s : String) : String :=
  String.mk (((s.data.dropWhile isPySpace).reverse.dropWhile isPySpace).reverse)

/-- Python `a or b` evaluated on strings: yields `b` exactly when `a` is
empty (falsy), used for the `stderr.strip() or stdout.strip()` fallbacks. -/
def pyOrS (a b : String) : String := if a = "" then b else a

/-- The failure taxonomy of the Builder stages (§7 of the design): each
constructor carries the payload the corresponding Python exception message
is formatted from. -/
inductive BuildError where
  | environmentCreationFailed (msg : String)
  | depInstallFailed (dep : String) (msg : String)
  | mainFileNotFound (path : String)
  | compilationFailed (msg : String)
  | outputNotProduced (path : String)

/-! ### Data-directory entry parsing (builder.py lines 188-200) -/

/-- Split a character list at the first occurrence of a `=`; `none` when no
`=` occurs. -/
def splitFirstEq : List Char → Option (List Char × List Char)
  | [] => none
  | c :: cs =>
    if c = '=' then some ([], cs)
    else
      match splitFirstEq cs with
      | some (a, b) => some (c :: a, b)
      | none => none

/-- Python `data_dir.split("=", 1)`: at most one split, on the first `=`. -/
def pySplitOnceEq (s : String) : List String :=
  match splitFirstEq s.data with
  | some (a, b) => [String.mk a, String.mk b]
  | none => [s]

/-- Python `"=" in data_dir`. -/
def containsEq (s : String) : Bool := s.data.contains '='

/-- The source/dest parsing of one `include_data_dirs` entry
(builder.py lines 189-196): `"source=dest"` splits on the first `=` only,
and an entry without `=` maps the destination to the source. -/
def parse_data_dir_entry (data_dir : String) : String × String :=
  if containsEq data_dir then
    let parts := pySplitOnceEq data_dir
    let source_path := parts.headD ""
    let dest_path := if parts.length > 1 then parts.getD 1 "" else parts.headD ""
    (source_path, dest_path)
  else
    (data_dir, data_dir)

/-- The data-directory flag loop of `build_with_nuitka` (builder.py lines
188-200): one `--include-data-dir=source=dest` flag per entry, appended only
when the parsed source path exists (`os.path.exists(source_path)`). -/
def dataDirFlags (pathExists : String → Bool) (entries : List String) :
    List String :=
  entries.filterMap (fun data_dir =>
    let sd := parse_data_dir_entry data_dir
    if pathExists sd.1 then
      some ("--include-data-dir=" ++ sd.1 ++ "=" ++ sd.2)
    else none)

/-! ### Dependency installation (builder.py lines 140-154, 281-289) -/

/-- `Builder._install_single_dependency` (builder.py lines 281-289): one
`pip install dep` subprocess (its result supplied by the `pipRun` oracle);
on non-zero exit, fail with the package name and the stripped error stream,
falling back to the stripped standard output. -/
def install_single_dependency (pipRun : String → ProcResult) (dep : String) :
    Except BuildError Unit :=
  let result := pipRun dep
  if result.returncode ≠ 0 then
    let error_msg := pyOrS (pyStrip result.stderr) (pyStrip result.stdout)
    .error (.depInstallFailed dep error_msg)
  else .ok ()

/-- One `for dep in libs: self._install_single_dependency(dep)` loop,
additionally recording which packages were attempted, in order.  The first
failure aborts the loop (the Python exception propagates). -/
def installLoop (pipRun : String → ProcResult) :
    List String → List String × Except BuildError Unit
  | [] => ([], .ok ())
  | dep :: rest =>
    match install_single_dependency pipRun dep with
    | .error e => ([dep], .error e)
    | .ok _ =>
      let r := installLoop pipRun rest
      (dep :: r.1, r.2)

/-- `Builder.install_dependencies` (builder.py lines 140-146): the
`build_libs` loop, then — guarded by `if self.config.project_libs:` — the
`project_libs` loop. -/
def install_dependencies (pipRun : String → ProcResult)
    (build_libs project_libs : List String) :
    List String × Except BuildError Unit :=
  let r1 := installLoop pipRun build_libs
  match r1.2 with
  | .error e => (r1.1, .error e)
  | .ok _ =>
    if project_libs.isEmpty then (r1.1, .ok ())
    else
      let r2 := installLoop pipRun project_libs
      (r1.1 ++ r2.1, r2.2)

/-- The loop of `install_dependencies_with_callback` (builder.py lines
152-154): `enumerate(all_deps, start=1)` with `callback(dep, index, total)`
invoked before each installation.  Returns the callback invocations, the
attempted packages and the outcome. -/
def callbackLoop (pipRun : String → ProcResult) (total : Nat) :
    Nat → List String →
    List (String × Nat × Nat) × List String × Except BuildError Unit
  | _, [] => ([], [], .ok ())
  | index, dep :: rest =>
    match install_single_dependency pipRun dep with
    | .error e => ([(dep, index, total)], [dep], .error e)
    | .ok _ =>
      let r := callbackLoop pipRun total (index + 1) rest
      ((dep, index, total) :: r.1, dep :: r.2.1, r.2.2)

/-- `Builder.install_dependencies_with_callback` (builder.py lines
148-154): `all_deps = list(build_libs) + list(project_libs)`,
`total = len(all_deps)`, then the enumerated loop starting at index 1. -/
def install_dependencies_with_callback (pipRun : String → ProcResult)
    (build_libs project_libs : List String) :
    List (String × Nat × Nat) × List String × Except BuildError Unit :=
  let all_deps := build_libs ++ project_libs
  let total := all_deps.length
  callbackLoop pipRun total 1 all_deps

/-! ### The Compile stage (builder.py lines 156-222) -/

/-- The six `windows_metadata` fields (builder.py lines 56-67). -/
structure WindowsMetadata where
  product_name : String
  file_description : String
  product_version : String
  file_version : String
  copyright : String
  company_name : String

/-- The typed view of the configuration consumed by the Builder stages:
each field is the value of the corresponding `BuilderConfig` accessor
(builder.py lines 23-82). -/
structure ConfigView where
  main_file : String
  output_name : String
  windows_metadata : WindowsMetadata
  nuitka_extra_args : List String
  include_packages : List String
  include_data_dirs : List String
  nuitka_plugins : List String
  icon_file : Option String

/-- The `nuitka_args` list assembled by `build_with_nuitka` (builder.py
lines 161-210): the fixed flags with output name and metadata, then
`nuitka_extra_args`, the `--include-package` flags, the data-directory
flags, the `--plugin-enable` flags, the icon flag (only when an icon is
configured — Python truthiness — and its path exists), and finally the
entry-point file as positional argument. -/
def nuitkaArgs (cfg : ConfigView) (python_exe : String)
    (pathExists : String → Bool) : List String :=
  [python_exe, "-m", "nuitka", "--standalone", "--onefile",
   "--assume-yes-for-downloads", "--remove-output", "--no-pyi-file",
   "--output-filename=" ++ cfg.output_name,
   "--product-name=" ++ cfg.windows_metadata.product_name,
   "--file-description=" ++ cfg.windows_metadata.file_description,
   "--product-version=" ++ cfg.windows_metadata.product_version,
   "--file-version=" ++ cfg.windows_metadata.file_version,
   "--copyright=" ++ cfg.windows_metadata.copyright,
   "--company-name=" ++ cfg.windows_metadata.company_name]
  ++ cfg.nuitka_extra_args
  ++ cfg.include_packages.map (fun package => "--include-package=" ++ package)
  ++ dataDirFlags pathExists cfg.include_data_dirs
  ++ cfg.nuitka_plugins.map (fun plugin => "--plugin-enable=" ++ plugin)
  ++ (match cfg.icon_file with
      | some icon =>
        if icon != "" && pathExists icon then
          ["--windows-icon-from-ico=" ++ icon]
        else []
      | none => [])
  ++ [cfg.main_file]

/-- `Builder.build_with_nuitka` (builder.py lines 156-222).  `pathExists`
is the filesystem-existence oracle at invocation time (used for the
entry-point check, the data-dir and icon checks); `pathExistsAfter` is the
oracle after the backend subprocess (used for the output check);
`absolutePath` models `Path(p).absolute()`; `runBackend` yields the backend
subprocess result for the constructed argument list. -/
def build_with_nuitka (cfg : ConfigView) (python_exe : String)
    (pathExists : String → Bool) (absolutePath : String → String)
    (runBackend : List String → ProcResult)
    (pathExistsAfter : String → Bool) : Except BuildError Unit :=
  if pathExists cfg.main_file = false then
    .error (.mainFileNotFound (absolutePath cfg.main_file))
  else
    let result := runBackend (nuitkaArgs cfg python_exe pathExists)
    if result.returncode ≠ 0 then
      let error_msg := pyOrS (pyOrS (pyStrip result.stderr) (pyStrip result.stdout))
        "Nuitka compilation failed with no error message"
      .error (.compilationFailed error_msg)
    else if pathExistsAfter cfg.output_name = false then
      .error (.outputNotProduced (absolutePath cfg.output_name))
    else .ok ()

/-! ### The Cleanup stage (builder.py lines 224-239) -/

/-- Per-item removal in `Builder.cleanup` (builder.py lines 226-233): the
`os.path.exists(item)` guard, then removal (`shutil.rmtree` with
`ignore_errors=True` for directories, `os.remove` for files) with
`(OSError, PermissionError)` swallowed.  `removeOk item = false` models a
removal attempt that failed and left the path in place; either way no
error propagates. -/
def removeItem (removeOk : String → Bool) (fs : String → Bool)
    (item : String) : String → Bool :=
  if fs item then
    (if removeOk item then fun p => if p = item then false else fs p else fs)
  else fs

/-- `Builder.cleanup` (builder.py lines 224-239): best-effort removal of
every entry of `cleanup_items`, then of the scratch directory (guarded by
`if self._temp_dir and os.path.exists(self._temp_dir)` — Python truthiness,
so `None` and the empty string are both skipped). -/
def cleanup (removeOk : String → Bool) (items : List String)
    (temp_dir : Option String) (fs : String → Bool) : String → Bool :=
  let fs1 := items.foldl (removeItem removeOk) fs
  match temp_dir with
  | some td => if td = "" then fs1 else removeItem removeOk fs1 td
  | none => fs1

/-! ### Provisioning and session state (builder.py lines 114-138) -/

/-- The per-session state of a `Builder`: `self._temp_dir`,
`self._venv_path`, `self._python_exe` (builder.py lines 118-120). -/
structure SessionState where
  temp_dir : Option String
  venv_path : Option String
  python_exe : Option String

/-- `Builder.__init__` (builder.py lines 115-120): all three session fields
start out as `None`. -/
def initialSession : SessionState := ⟨none, none, none⟩

/-- `pathlib.Path.__truediv__`: join with the path separator. -/
def joinPath (a b : String) : String := a ++ "/" ++ b

/-- `Builder.create_temp_env` (builder.py lines 122-138):
`tempfile.mkdtemp(prefix="build_")` yields `new_temp_dir`; the
`python -m venv` subprocess yields `venvResult`; `isWindows` models
`os.name == "nt"`.  Note that the assignments to `self._temp_dir` and
`self._venv_path` happen before the provisioning subprocess is run. -/
def create_temp_env (st : SessionState) (new_temp_dir : String)
    (venvResult : ProcResult) (isWindows : Bool) :
    SessionState × Except BuildError Unit :=
  let st1 := { st with temp_dir := some new_temp_dir,
                       venv_path := some (joinPath new_temp_dir "venv") }
  if venvResult.returncode ≠ 0 then
    let error_msg := pyOrS (pyStrip venvResult.stderr) (pyStrip venvResult.stdout)
    (st1, .error (.environmentCreationFailed error_msg))
  else
    let python_exe :=
      if isWindows then
        joinPath (joinPath (joinPath new_temp_dir "venv") "Scripts") "python.exe"
      else
        joinPath (joinPath (joinPath new_temp_dir "venv") "bin") "python"
    ({ st1 with python_exe := some python_exe }, .ok ())

/-! ### The orchestrator (builder.py lines 241-279) -/

/-- The outcome of one effectful stage as observed by `Builder.build`:
normal return, a raised exception, or a `KeyboardInterrupt` delivered
during the stage. -/
inductive StageOutcome where
  | ok
  | failure (msg : String)
  | interrupt

/-- The observable actions of one `Builder.build` run. -/
inductive StageAction where
  | provisionStage
  | installStage
  | compileStage
  | cleanupStage
deriving DecidableEq

/-- The result of one `Builder.build` run: which stages ran (in order) and
the process exit status (`some 1` for `sys.exit(1)`, `none` for a normal
return, which the CLI maps to exit status 0). -/
structure BuildRun where
  trace : List StageAction
  exitStatus : Option Nat

/-- `Builder.build` (builder.py lines 241-279): runs `create_temp_env`,
`install_dependencies`, `build_with_nuitka` and `cleanup` in order inside a
`try`; both the `KeyboardInterrupt` handler and the generic `Exception`
handler run `cleanup` and then call `sys.exit(1)`.  The three effectful
stages are abstracted by their outcomes; `cleanup` itself never raises
(its per-item failures are swallowed, see `cleanup` above). -/
def buildOrchestrator (provisionOutcome installOutcome compileOutcome :
    StageOutcome) : BuildRun :=
  match provisionOutcome with
  | .ok =>
    match installOutcome with
    | .ok =>
      match compileOutcome with
      | .ok =>
        ⟨[.provisionStage, .installStage, .compileStage, .cleanupStage], none⟩
      | _ =>
        ⟨[.provisionStage, .installStage, .compileStage, .cleanupStage], some 1⟩
    | _ => ⟨[.provisionStage, .installStage, .cleanupStage], some 1⟩
  | _ => ⟨[.provisionStage, .cleanupStage], some 1⟩

/-! ### C7: shape of `cleanup_items` -/

lemma filterMap_asString_map_str (custom : List String) :
    (custom.map YamlValue.str).filterMap asString = custom := by
  induction custom with
  | nil => rfl
  | cons c cs ih => simp [List.filterMap_cons, asString, ih]

/-- C7: for every configuration document, `cleanup_items` returns exactly
the four canonical names — `project_name + ".build"`, `project_name +
".dist"`, `project_name + ".onefile-build"`, `"__pycache__"` — followed by
the document-supplied custom cleanup paths in order (and by nothing when
the document supplies none). -/
theorem C7_cleanup_items_canonical (config : Doc) (name : String)
    (hname : config.find "project_name" = some (.str name)) :
    (∀ custom : List String,
      config.find "cleanup_items" = some (.list (custom.map .str)) →
      cleanup_items config =
        [name ++ ".build", name ++ ".dist", name ++ ".onefile-build",
         "__pycache__"] ++ custom) ∧
    (config.find "cleanup_items" = none →
      cleanup_items config =
        [name ++ ".build", name ++ ".dist", name ++ ".onefile-build",
         "__pycache__"]) := by
  have hpn : project_name config = name := by
    unfold project_name
    rw [hname]
  constructor
  · intro custom hcustom
    simp only [cleanup_items, getStringList, hpn, hcustom,
      filterMap_asString_map_str]
  · intro hnone
    simp only [cleanup_items, getStringList, hpn, hnone, List.append_nil]

/-- Witness for C7: `project_name = "foo"` with two custom cleanup paths. -/
theorem C7_cleanup_items_canonical_witness :
    cleanup_items
        [("project_name", YamlValue.str "foo"),
         ("cleanup_items",
          YamlValue.list [YamlValue.str "extra1", YamlValue.str "extra2"])] =
      ["foo" ++ ".build", "foo" ++ ".dist", "foo" ++ ".onefile-build",
       "__pycache__"] ++ ["extra1", "extra2"] :=
  (C7_cleanup_items_canonical
      [("project_name", YamlValue.str "foo"),
       ("cleanup_items",
        YamlValue.list [YamlValue.str "extra1", YamlValue.str "extra2"])]
      "foo" (by rfl)).1 ["extra1", "extra2"] (by rfl)

/-! ### C5: data-directory entry parsing and flag emission -/

lemma splitFirstEq_of_not_contains (l : List Char)
    (h : l.contains '=' = false) : splitFirstEq l = none := by
  induction l with
  | nil => rfl
  | cons c cs ih =>
    have hc : ('=' == c) = false := by
      cases hb : ('=' == c) with
      | false => rfl
      | true =>
        rw [show (c :: cs).contains '=' = ('=' == c || cs.contains '=')
          from rfl, hb] at h
        simp at h
    have hcs : cs.contains '=' = false := by
      rw [show (c :: cs).contains '=' = ('=' == c || cs.contains '=')
        from rfl, hc] at h
      simpa using h
    have hne : ¬ (c = '=') := by
      intro he
      subst he
      simp at hc
    unfold splitFirstEq
    rw [if_neg hne, ih hcs]

lemma splitFirstEq_append (a b : List Char) (h : a.contains '=' = false) :
    splitFirstEq (a ++ '=' :: b) = some (a, b) := by
  induction a with
  | nil => simp [splitFirstEq]
  | cons c cs ih =>
    have hc : ('=' == c) = false := by
      cases hb : ('=' == c) with
      | false => rfl
      | true =>
        rw [show (c :: cs).contains '=' = ('=' == c || cs.contains '=')
          from rfl, hb] at h
        simp at h
    have hcs : cs.contains '=' = false := by
      rw [show (c :: cs).contains '=' = ('=' == c || cs.contains '=')
        from rfl, hc] at h
      simpa using h
    have hne : ¬ (c = '=') := by
      intro he
      subst he
      simp at hc
    show splitFirstEq (c :: (cs ++ '=' :: b)) = some (c :: cs, b)
    unfold splitFirstEq
    rw [if_neg hne, ih hcs]

lemma string_eta (s : String) : String.mk s.data = s := rfl

/-- C5: parsing an `include_data_dirs` entry splits on the first `=` only
(`"a=b"` gives source `a` and destination `b`, where `b` may itself contain
further `=`), an entry with no `=` maps the destination to the source, and
the Compile stage emits one `--include-data-dir` flag per entry exactly
when the parsed source path exists, silently skipping the others. -/
theorem C5_data_dir_entries (pathExists : String → Bool) :
    (∀ s : String, containsEq s = false →
      parse_data_dir_entry s = (s, s)) ∧
    (∀ a b : String, containsEq a = false →
      parse_data_dir_entry (a ++ "=" ++ b) = (a, b)) ∧
    (∀ entries : List String,
      dataDirFlags pathExists entries =
        (entries.filter
          (fun e => pathExists (parse_data_dir_entry e).1)).map
          (fun e => "--include-data-dir=" ++ (parse_data_dir_entry e).1 ++
            "=" ++ (parse_data_dir_entry e).2)) := by
  refine ⟨?_, ?_, ?_⟩
  · intro s h
    simp [parse_data_dir_entry, h]
  · intro a b h
    have hdata : (a ++ "=" ++ b).data = a.data ++ '=' :: b.data := by
      simp [String.data_append]
    have hsplit : splitFirstEq (a.data ++ '=' :: b.data) =
        some (a.data, b.data) := splitFirstEq_append a.data b.data h
    have hcont : containsEq (a ++ "=" ++ b) = true := by
      unfold containsEq
      rw [hdata]
      simp
    simp [parse_data_dir_entry, hcont, pySplitOnceEq, hdata, hsplit,
      string_eta]
  · intro entries
    induction entries with
    | nil => rfl
    | cons e es ih =>
      simp only [dataDirFlags, List.filterMap_cons, List.filter_cons] at ih ⊢
      by_cases hp : pathExists (parse_data_dir_entry e).1 = true
      · simp [hp, ih]
      · simp only [Bool.not_eq_true] at hp
        simp [hp, ih]

/-- Witness for C5: the three parse examples from the design plus a flag
emission where only one of two sources exists. -/
theorem C5_data_dir_entries_witness :
    parse_data_dir_entry "assets" = ("assets", "assets") ∧
    parse_data_dir_entry "a=b=c" = ("a", "b=c") ∧
    dataDirFlags (fun p => p == "a") ["a=b", "x=y"] =
      ["--include-data-dir=a=b"] := by
  refine ⟨(C5_data_dir_entries (fun _ => true)).1 "assets" (by rfl), ?_, ?_⟩
  · exact (C5_data_dir_entries (fun _ => true)).2.1 "a" "b=c" (by rfl)
  · rw [(C5_data_dir_entries (fun p => p == "a")).2.2 ["a=b", "x=y"]]
    rfl

/-! ### C3 / C9: the Install stage -/

lemma installLoop_append (pipRun : String → ProcResult)
    (xs ys : List String) :
    installLoop pipRun (xs ++ ys) =
      match (installLoop pipRun xs).2 with
      | .error e => ((installLoop pipRun xs).1, .error e)
      | .ok _ =>
        ((installLoop pipRun xs).1 ++ (installLoop pipRun ys).1,
         (installLoop pipRun ys).2) := by
  induction xs with
  | nil => simp [installLoop]
  | cons d ds ih =>
    cases hE : install_single_dependency pipRun d with
    | error e => simp [installLoop, hE]
    | ok u =>
      rw [show (d :: ds) ++ ys = d :: (ds ++ ys) from rfl]
      simp only [installLoop, hE, ih]
      cases h2 : (installLoop pipRun ds).2 <;> simp

lemma install_dependencies_eq_loop (pipRun : String → ProcResult)
    (build_libs project_libs : List String) :
    install_dependencies pipRun build_libs project_libs =
      installLoop pipRun (build_libs ++ project_libs) := by
  cases h2 : (installLoop pipRun build_libs).2 with
  | error e =>
    simp [install_dependencies, installLoop_append, h2]
  | ok u =>
    cases project_libs with
    | nil =>
      cases u
      simp [install_dependencies, installLoop_append, h2, installLoop]
      conv_rhs =>
        rw [show installLoop pipRun build_libs =
          ((installLoop pipRun build_libs).1,
           (installLoop pipRun build_libs).2) from (Prod.mk.eta).symm]
      rw [h2]
    | cons p ps =>
      simp [install_dependencies, installLoop_append, h2, List.isEmpty]

lemma installLoop_fail (pipRun : String → ProcResult) :
    ∀ (deps : List String) (n : Nat) (dep : String),
    deps[n]? = some dep →
    (pipRun dep).returncode ≠ 0 →
    (∀ i, i < n → ∀ d, deps[i]? = some d → (pipRun d).returncode = 0) →
    installLoop pipRun deps =
      (deps.take (n + 1),
       .error (.depInstallFailed dep
         (pyOrS (pyStrip (pipRun dep).stderr)
           (pyStrip (pipRun dep).stdout)))) := by
  intro deps
  induction deps with
  | nil =>
    intro n dep hn
    simp at hn
  | cons d rest ih =>
    intro n dep hn hfail hok
    cases n with
    | zero =>
      rw [List.getElem?_cons_zero] at hn
      cases hn
      simp [installLoop, install_single_dependency, hfail, List.take_succ_cons]
    | succ m =>
      have h0 : (pipRun d).returncode = 0 :=
        hok 0 (Nat.succ_pos m) d List.getElem?_cons_zero
      have hsingle : install_single_dependency pipRun d = .ok () := by
        simp [install_single_dependency, h0]
      rw [List.getElem?_cons_succ] at hn
      have hok2 : ∀ i, i < m → ∀ e, rest[i]? = some e →
          (pipRun e).returncode = 0 := by
        intro i hi e he
        exact hok (i + 1) (Nat.succ_lt_succ hi) e
          (by rw [List.getElem?_cons_succ]; exact he)
      simp only [installLoop, hsingle, ih m dep hn hfail hok2,
        List.take_succ_cons]

/-- C3: the Install stage attempts every entry of `build_libs` followed by
every entry of `project_libs` in order; when the package at (0-based)
position `n` is the first to fail, the stage aborts immediately with a
`DependencyInstallFailed` error naming that package (diagnostic text from
the stripped error stream, falling back to standard output): exactly the
first `n + 1` packages were attempted, and none after the failing one. -/
theorem C3_install_fail_fast (pipRun : String → ProcResult)
    (build_libs project_libs : List String) (n : Nat) (dep : String)
    (hn : (build_libs ++ project_libs)[n]? = some dep)
    (hfail : (pipRun dep).returncode ≠ 0)
    (hok : ∀ i, i < n → ∀ d, (build_libs ++ project_libs)[i]? = some d →
      (pipRun d).returncode = 0) :
    install_dependencies pipRun build_libs project_libs =
      ((build_libs ++ project_libs).take (n + 1),
       .error (.depInstallFailed dep
         (pyOrS (pyStrip (pipRun dep).stderr)
           (pyStrip (pipRun dep).stdout)))) := by
  rw [install_dependencies_eq_loop]
  exact installLoop_fail pipRun (build_libs ++ project_libs) n dep hn hfail hok

/-- The package installer used by the C3 witness: every package installs
cleanly except `"bad"`. -/
def pipRunW (dep : String) : ProcResult :=
  if dep == "bad" then ⟨1, "", "E: no matching distribution"⟩
  else ⟨0, "ok", ""⟩

/-- Witness for C3: with `build_libs = ["nuitka", "ordered-set"]` and
`project_libs = ["bad", "requests"]`, the third installation fails, the
first two were attempted, and `"requests"` is never attempted. -/
theorem C3_install_fail_fast_witness :
    install_dependencies pipRunW ["nuitka", "ordered-set"]
        ["bad", "requests"] =
      (["nuitka", "ordered-set", "bad"],
       .error (.depInstallFailed "bad" "E: no matching distribution")) := by
  have h := C3_install_fail_fast pipRunW ["nuitka", "ordered-set"]
    ["bad", "requests"] 2 "bad" (by rfl) (by decide) (by
      intro i hi d hd
      have h2 : i = 0 ∨ i = 1 := by omega
      cases h2 with
      | inl h0 =>
        subst h0
        rw [show (["nuitka", "ordered-set"] ++ ["bad", "requests"])[0]? =
          some "nuitka" from rfl] at hd
        cases hd
        rfl
      | inr h1 =>
        subst h1
        rw [show (["nuitka", "ordered-set"] ++ ["bad", "requests"])[1]? =
          some "ordered-set" from rfl] at hd
        cases hd
        rfl)
  exact h

/-- The 1-based numbering `(dep, ordinal, total)` that the
progress-reporting variant feeds its observer. -/
def numberFrom (total : Nat) : Nat → List String → List (String × Nat × Nat)
  | _, [] => []
  | i, d :: ds => (d, i, total) :: numberFrom total (i + 1) ds

lemma callbackLoop_spec (pipRun : String → ProcResult) (total : Nat) :
    ∀ (deps : List String) (start : Nat),
    callbackLoop pipRun total start deps =
      (numberFrom total start (installLoop pipRun deps).1,
       (installLoop pipRun deps).1, (installLoop pipRun deps).2) := by
  intro deps
  induction deps with
  | nil => intro start; rfl
  | cons d rest ih =>
    intro start
    cases hE : install_single_dependency pipRun d with
    | error e => simp [callbackLoop, installLoop, hE, numberFrom]
    | ok u => simp [callbackLoop, installLoop, hE, numberFrom, ih (start + 1)]

/-- C9: the silent variant and the progress-reporting variant attempt
exactly the same packages in exactly the same order (`build_libs` then
`project_libs`) with the same outcome, and the progress-reporting variant
invokes the observer exactly once before each attempted installation with
`(package, 1-based ordinal, total count)`. -/
theorem C9_install_variants_agree (pipRun : String → ProcResult)
    (build_libs project_libs : List String) :
    (install_dependencies_with_callback pipRun build_libs project_libs).2.1 =
      (install_dependencies pipRun build_libs project_libs).1 ∧
    (install_dependencies_with_callback pipRun build_libs project_libs).2.2 =
      (install_dependencies pipRun build_libs project_libs).2 ∧
    (install_dependencies_with_callback pipRun build_libs project_libs).1 =
      numberFrom (build_libs ++ project_libs).length 1
        ((install_dependencies_with_callback pipRun
          build_libs project_libs).2.1) := by
  unfold install_dependencies_with_callback
  rw [callbackLoop_spec, install_dependencies_eq_loop]
  exact ⟨rfl, rfl, rfl⟩

/-! ### C4: Compile-stage failure classification -/

/-- C4: the Compile stage classifies failures in order: `MainFileNotFound`
(carrying the resolved absolute path) before even invoking the backend when
the entry point does not exist; `CompilationFailed` on non-zero backend
exit, with the message from the stripped error stream, falling back to
standard output, falling back to the fixed sentinel; and after a zero exit,
`OutputNotProduced` exactly when the declared output path does not exist. -/
theorem C4_compile_failure_order (cfg : ConfigView) (python_exe : String)
    (pathExists : String → Bool) (absolutePath : String → String)
    (runBackend : List String → ProcResult) (pathExistsAfter : String → Bool) :
    (pathExists cfg.main_file = false →
      build_with_nuitka cfg python_exe pathExists absolutePath runBackend
          pathExistsAfter =
        .error (.mainFileNotFound (absolutePath cfg.main_file))) ∧
    (pathExists cfg.main_file = true →
      (runBackend (nuitkaArgs cfg python_exe pathExists)).returncode ≠ 0 →
      build_with_nuitka cfg python_exe pathExists absolutePath runBackend
          pathExistsAfter =
        .error (.compilationFailed (pyOrS
          (pyOrS
            (pyStrip (runBackend (nuitkaArgs cfg python_exe
              pathExists)).stderr)
            (pyStrip (runBackend (nuitkaArgs cfg python_exe
              pathExists)).stdout))
          "Nuitka compilation failed with no error message"))) ∧
    (pathExists cfg.main_file = true →
      (runBackend (nuitkaArgs cfg python_exe pathExists)).returncode = 0 →
      (build_with_nuitka cfg python_exe pathExists absolutePath runBackend
          pathExistsAfter =
        .error (.outputNotProduced (absolutePath cfg.output_name)) ↔
        pathExistsAfter cfg.output_name = false) ∧
      (pathExistsAfter cfg.output_name = true →
        build_with_nuitka cfg python_exe pathExists absolutePath runBackend
          pathExistsAfter = .ok ())) := by
  refine ⟨?_, ?_, ?_⟩
  · intro h
    simp [build_with_nuitka, h]
  · intro h hrc
    simp [build_with_nuitka, h, hrc]
  · intro h hrc
    constructor
    · constructor
      · intro heq
        by_contra hafter
        simp only [Bool.not_eq_false] at hafter
        simp [build_with_nuitka, h, hrc, hafter] at heq
      · intro hafter
        simp [build_with_nuitka, h, hrc, hafter]
    · intro hafter
      simp [build_with_nuitka, h, hrc, hafter]

/-- The configuration used by the C4 witness. -/
def cfgW : ConfigView :=
  { main_file := "main.py"
    output_name := "app.exe"
    windows_metadata := ⟨"P", "D", "1.0", "1.0", "C", "N"⟩
    nuitka_extra_args := []
    include_packages := []
    include_data_dirs := []
    nuitka_plugins := []
    icon_file := none }

/-- Witness for C4: the entry point exists, the backend exits with status 1
and both streams empty, so the stage fails with the fixed sentinel text. -/
theorem C4_compile_failure_order_witness :
    build_with_nuitka cfgW "python" (fun p => p == "main.py")
        (fun p => "/abs/" ++ p) (fun _ => ⟨1, "", ""⟩) (fun _ => false) =
      .error (.compilationFailed
        "Nuitka compilation failed with no error message") :=
  (C4_compile_failure_order cfgW "python" (fun p => p == "main.py")
      (fun p => "/abs/" ++ p) (fun _ => ⟨1, "", ""⟩) (fun _ => false)).2.1
    (by rfl) (by decide)

/-! ### C8: Cleanup idempotence -/

lemma removeItem_apply (removeOk fs : String → Bool) (item p : String) :
    removeItem removeOk fs item p =
      if p = item ∧ removeOk item then false else fs p := by
  by_cases h1 : fs item = true <;> by_cases h2 : removeOk item = true <;>
    by_cases h3 : p = item <;>
    simp_all [removeItem]

/-- The scratch-directory removal target: the temp dir as a (possibly
empty) extra item list, honouring its Python truthiness guard. -/
def tdItems : Option String → List String
  | some td => if td = "" then [] else [td]
  | none => []

lemma cleanup_eq_foldl (removeOk : String → Bool) (items : List String)
    (temp_dir : Option String) (fs : String → Bool) :
    cleanup removeOk items temp_dir fs =
      (items ++ tdItems temp_dir).foldl (removeItem removeOk) fs := by
  unfold cleanup tdItems
  cases temp_dir with
  | none => simp
  | some td =>
    by_cases h : td = "" <;>
      simp [h, List.foldl_append]

lemma foldl_removeItem (removeOk : String → Bool) (items : List String) :
    ∀ (fs : String → Bool) (p : String),
    (items.foldl (removeItem removeOk) fs) p =
      if p ∈ items ∧ removeOk p then false else fs p := by
  induction items with
  | nil =>
    intro fs p
    simp
  | cons i is ih =>
    intro fs p
    rw [List.foldl_cons, ih]
    by_cases hok : removeOk p = true
    · by_cases hmem : p ∈ is
      · simp [hmem, hok]
      · by_cases hpi : p = i
        · subst hpi
          simp [hmem, hok, removeItem_apply]
        · simp [hmem, hok, hpi, removeItem_apply]
    · by_cases hpi : p = i
      · subst hpi
        simp [hok, removeItem_apply]
      · simp [hok, hpi, removeItem_apply]

/-- C8: cleanup is idempotent: with the same removal-failure behaviour, a
second invocation in succession is a no-op — no path changes beyond the
first invocation's effect (and cleanup is a total function: per-item
failures are swallowed, every removal is guarded by an existence check). -/
theorem C8_cleanup_idempotent (removeOk : String → Bool)
    (items : List String) (temp_dir : Option String) (fs : String → Bool) :
    cleanup removeOk items temp_dir (cleanup removeOk items temp_dir fs) =
      cleanup removeOk items temp_dir fs ∧
    ∀ p, cleanup removeOk items temp_dir fs p =
      if p ∈ items ++ tdItems temp_dir ∧ removeOk p = true then false
      else fs p := by
  constructor
  · funext p
    simp only [cleanup_eq_foldl, foldl_removeItem]
    by_cases hC : p ∈ items ++ tdItems temp_dir ∧ removeOk p = true <;>
      simp [hC]
  · intro p
    simp only [cleanup_eq_foldl, foldl_removeItem]

/-! ### C6: session fields across a failed `create_temp_env` -/

/-- Counterexample to C6: starting from a fresh `Builder`, a
`create_temp_env` invocation whose provisioning subprocess fails (exit
status 1) fails with `EnvironmentCreationFailed`, yet `temp_dir` is not
`None` afterwards — it already holds the freshly created scratch
directory, because the assignment happens before the subprocess runs. -/
theorem C6_counterexample :
    (create_temp_env initialSession "/tmp/build_x1" ⟨1, "", "boom"⟩
        false).2 =
      .error (.environmentCreationFailed "boom") ∧
    ¬ ((create_temp_env initialSession "/tmp/build_x1" ⟨1, "", "boom"⟩
        false).1.temp_dir = none) := by
  constructor
  · rfl
  · intro h
    rw [show (create_temp_env initialSession "/tmp/build_x1"
      ⟨1, "", "boom"⟩ false).1.temp_dir = some "/tmp/build_x1" from rfl] at h
    cases h

/-- C6 (amended): the session fields are all `None` at construction; after
a `create_temp_env` invocation that fails with
`EnvironmentCreationFailed`, the isolated runtime's executable path is
still `None`, but `temp_dir` (and the venv path) already hold the newly
created scratch directory, which was recorded before the provisioning
subprocess ran. -/
theorem C6_amended_session_fields (new_temp_dir : String)
    (venvResult : ProcResult) (isWindows : Bool)
    (hfail : venvResult.returncode ≠ 0) :
    initialSession.temp_dir = none ∧
    initialSession.venv_path = none ∧
    initialSession.python_exe = none ∧
    (create_temp_env initialSession new_temp_dir venvResult isWindows).2 =
      .error (.environmentCreationFailed
        (pyOrS (pyStrip venvResult.stderr) (pyStrip venvResult.stdout))) ∧
    (create_temp_env initialSession new_temp_dir venvResult
        isWindows).1.temp_dir = some new_temp_dir ∧
    (create_temp_env initialSession new_temp_dir venvResult
        isWindows).1.python_exe = none := by
  refine ⟨rfl, rfl, rfl, ?_, ?_, ?_⟩ <;>
    simp [create_temp_env, hfail, initialSession]

/-- Witness for C6 (amended): concrete failing provisioning subprocess. -/
theorem C6_amended_session_fields_witness :
    initialSession.temp_dir = none ∧
    initialSession.venv_path = none ∧
    initialSession.python_exe = none ∧
    (create_temp_env initialSession "/tmp/build_y2" ⟨1, "", "no venv"⟩
        false).2 =
      .error (.environmentCreationFailed
        (pyOrS (pyStrip "no venv") (pyStrip ""))) ∧
    (create_temp_env initialSession "/tmp/build_y2" ⟨1, "", "no venv"⟩
        false).1.temp_dir = some "/tmp/build_y2" ∧
    (create_temp_env initialSession "/tmp/build_y2" ⟨1, "", "no venv"⟩
        false).1.python_exe = none :=
  C6_amended_session_fields "/tmp/build_y2" ⟨1, "", "no venv"⟩ false
    (by decide)

/-! ### C1: the orchestrator always cleans up -/

/-- C1: every run of `build()` — all stages succeed, any stage raises, or
an interruption signal arrives during any stage — executes the Cleanup
stage before returning or terminating, and any failure or interruption
terminates the process with the non-zero status 1; only the all-success
path returns normally. -/
theorem C1_cleanup_every_path (provisionOutcome installOutcome
    compileOutcome : StageOutcome) :
    StageAction.cleanupStage ∈
      (buildOrchestrator provisionOutcome installOutcome
        compileOutcome).trace ∧
    ((provisionOutcome = .ok ∧ installOutcome = .ok ∧
        compileOutcome = .ok) →
      (buildOrchestrator provisionOutcome installOutcome
        compileOutcome).exitStatus = none) ∧
    (¬ (provisionOutcome = .ok ∧ installOutcome = .ok ∧
        compileOutcome = .ok) →
      (buildOrchestrator provisionOutcome installOutcome
          compileOutcome).exitStatus = some 1 ∧ (1 : Nat) ≠ 0) := by
  cases provisionOutcome <;> cases installOutcome <;>
    cases compileOutcome <;>
    simp [buildOrchestrator]

/-- Witness for C1: an interruption delivered during the Install stage
still reaches Cleanup and exits with status 1. -/
theorem C1_cleanup_every_path_witness :
    StageAction.cleanupStage ∈
      (buildOrchestrator .ok .interrupt .ok).trace ∧
    (buildOrchestrator .ok .interrupt .ok).exitStatus = some 1 ∧
      (1 : Nat) ≠ 0 :=
  ⟨(C1_cleanup_every_path .ok .interrupt .ok).1,
   (C1_cleanup_every_path .ok .interrupt .ok).2.2 (by simp)⟩

end PyNexe
